import Mathlib

/-!
Verification of the open-runtimes types-for-go logging and response subsystem.

The Go source (package `types`, file `main.go`) is shallowly embedded below.
Go's `*os.File` streams are shared heap objects, while the `Logger` struct is
copied on every value-receiver method call; we model this split explicitly:

* `FileState` models one `*os.File` destination: its accumulated `content`,
  whether it `isOpen` (a nil or closed file accepts no bytes but a write on it
  is still attempted and its error ignored, as in `stream.Write`), a count of
  `writeAttempts` (calls of `stream.Write`) and of `closeCount` (calls of
  `Close`).
* `Files` holds the two shared destinations (`StreamLogs`, `StreamErrors`).
* `Logger` holds only the struct fields that value-receiver methods copy:
  `Enabled`, `Id`, `IncludesNativeInfo`.
* `GoValue` models an arbitrary Go value as seen by the logger: the result of
  `json.Marshal` (`none` when marshalling fails) and its `fmt.Sprintf "%v"`
  rendering.
* Methods with a value receiver (`Logger.Write`, `Logger.End`,
  `Logger.RevertNativeLogs` in `main.go`) take the `Logger` and return only the
  updated shared `Files`: mutations of the struct copy are discarded, exactly
  as Go discards them.
-/

/-- Go constant `LOGGER_TYPE_LOG`. -/
def LOGGER_TYPE_LOG : String := "log"

/-- Go constant `LOGGER_TYPE_ERROR`. -/
def LOGGER_TYPE_ERROR : String := "error"

/-- One `*os.File` destination stream. -/
structure FileState where
  isOpen : Bool
  content : String
  writeAttempts : Nat
  closeCount : Nat
deriving Repr, DecidableEq

/-- `stream.Write([]byte(s))`: the call is always attempted; bytes are
appended only when the file is open (a nil or closed `*os.File` returns an
error, which the Go code ignores). -/
def FileState.write (f : FileState) (s : String) : FileState :=
  { f with
    writeAttempts := f.writeAttempts + 1
    content := if f.isOpen then f.content ++ s else f.content }

/-- `stream.Close()`. -/
def FileState.close (f : FileState) : FileState :=
  { f with isOpen := false, closeCount := f.closeCount + 1 }

/-- The two shared destination streams of one logger. -/
structure Files where
  logs : FileState
  errors : FileState
deriving Repr, DecidableEq

/-- A fresh pair of open, empty destinations (as opened by `NewLogger` for an
enabled logger). -/
def openFiles : Files :=
  ⟨⟨true, "", 0, 0⟩, ⟨true, "", 0, 0⟩⟩

/-- The destinations of a logger constructed disabled: `NewLogger` opens no
files, so both streams are nil. -/
def nilFiles : Files :=
  ⟨⟨false, "", 0, 0⟩, ⟨false, "", 0, 0⟩⟩

/-- Go struct `Log` (the tagged display wrapper). -/
structure Log where
  Message : String
deriving Repr, DecidableEq

/-- `func (l Log) String() string { return l.Message }`. -/
def Log.render (l : Log) : String := l.Message

/-- An arbitrary Go value as the logger observes it: the result of
`json.Marshal` (`none` when marshalling fails) and the `fmt.Sprintf "%v"`
rendering used as fallback. -/
structure GoValue where
  jsonRepr : Option String
  verbose : String
deriving Repr, DecidableEq

/-- A value of Go type `interface{}` passed to `Write`, split by the dynamic
type switch of `Logger.Write`: exactly a `string`, exactly a `Log`, or
anything else. -/
inductive Message where
  | str : String → Message
  | logWrap : Log → Message
  | other : GoValue → Message
deriving Repr, DecidableEq

/-- The type switch of `Logger.Write` (main.go lines 187-203) producing
`stringLog`: a string is taken verbatim, a `Log` is rendered via `String()`,
anything else is JSON-marshalled with `fmt.Sprintf "%v"` as fallback on
marshalling error. -/
def resolveMessage : Message → String
  | .str s => s
  | .logWrap l => l.render
  | .other v =>
    match v.jsonRepr with
    | some j => j
    | none => v.verbose

/-- Destination selection and write of `Logger.Write` (main.go lines 181-185
and 205): `stream := l.StreamLogs; if xtype == LOGGER_TYPE_ERROR { stream =
l.StreamErrors }; stream.Write([]byte(stringLog))`. -/
def Files.writeTo (files : Files) (xtype : String) (s : String) : Files :=
  if xtype = LOGGER_TYPE_ERROR then
    { files with errors := files.errors.write s }
  else
    { files with logs := files.logs.write s }

/-- Go struct `Logger`, restricted to the plain struct fields that are copied
by value-receiver methods; the shared stream objects live in `Files`. -/
structure Logger where
  Enabled : Bool
  Id : String
  IncludesNativeInfo : Bool
deriving Repr, DecidableEq

/-- The advisory line of `Logger.Write` (main.go line 178). -/
def nativeAdvisory : String :=
  "Native logs detected. Use context.Log() or context.Error() for better experience."

/-- `func (l Logger) Write(message interface{}, xtype string, xnative bool)`
(main.go lines 175-206). The receiver is a value: the assignment
`l.IncludesNativeInfo = true` mutates only the local copy, which is passed to
the recursive advisory call and then discarded; the caller's `Logger` is
returned unchanged (hence not returned at all). The shared streams are
mutated through `Files`. -/
def Logger.Write (l : Logger) (message : Message) (xtype : String)
    (xnative : Bool) (files : Files) : Files :=
  if h : (xnative && !l.IncludesNativeInfo) = true then
    let files' := Logger.Write { l with IncludesNativeInfo := true }
      (.str nativeAdvisory) xtype xnative files
    files'.writeTo xtype (resolveMessage message)
  else
    files.writeTo xtype (resolveMessage message)
termination_by (if l.IncludesNativeInfo then 0 else 1)
decreasing_by
  simp only [Bool.and_eq_true, Bool.not_eq_true'] at h
  simp [h.2]

/-- Go struct `Context` (main.go lines 18-22); request and response are
irrelevant to the logging facade. -/
structure Context where
  _Logger : Logger
deriving Repr, DecidableEq

/-- `func (c *Context) Log(message interface{})` (main.go lines 32-34):
forwards to `c._Logger.Write(message, LOGGER_TYPE_LOG, false)`. -/
def Context.Log (c : Context) (message : Message) (files : Files) : Files :=
  c._Logger.Write message LOGGER_TYPE_LOG false files

/-- `func (c *Context) Error(message interface{})` (main.go lines 36-38):
the source forwards to `c._Logger.Write(message, LOGGER_TYPE_LOG, false)` —
with the LOG type constant, not ERROR. -/
def Context.Error (c : Context) (message : Message) (files : Files) : Files :=
  c._Logger.Write message LOGGER_TYPE_LOG false files

/-- `func (l Logger) End()` (main.go lines 208-217). Value receiver: the
assignment `l.Enabled = false` mutates only the local copy `el`, which is then
discarded, while `Close()` acts on the shared streams. -/
def Logger.End (l : Logger) (files : Files) : Files :=
  if !l.Enabled then files
  else
    let _el : Logger := { l with Enabled := false }
    { files with logs := files.logs.close, errors := files.errors.close }

/-- `func (l Logger) RevertNativeLogs()` (main.go lines 257-274), restricted
to its sink-routing tail: the two strings received from the drain channels
(`customLogs := <-l.NativeStreamLogs`, `customErrors := <-l.NativeStreamErrors`)
are taken as arguments. Each non-empty buffer is forwarded to `Write` with
`isNative = true`; the source's error branch forwards `customLogs`, not
`customErrors`. -/
def Logger.RevertNativeLogs (l : Logger) (customLogs customErrors : String)
    (files : Files) : Files :=
  let files1 :=
    if customLogs ≠ "" then l.Write (.str customLogs) LOGGER_TYPE_LOG true files
    else files
  if customErrors ≠ "" then
    l.Write (.str customLogs) LOGGER_TYPE_ERROR true files1
  else files1

/-- `func (l Logger) _GenerateId() string` (main.go lines 276-283), with the
ambient time and random draw as arguments:
`fmt.Sprintf("%d%d", timestamp, randomNumber)` — decimal renderings,
concatenated, no padding. -/
def Logger._GenerateId (timestamp : Int) (randomNumber : Nat) : String :=
  toString timestamp ++ toString randomNumber

/-- `func NewLogger(status string, id string) (Logger, error)` (main.go lines
135-173), restricted to the struct fields; the ambient environment variable
`OPEN_RUNTIMES_ENV` and the output of `l._GenerateId()` are arguments. When
enabled, the id is chosen by main.go's order: the `development` sentinel
first, then the supplied id, then the generated one. -/
def NewLogger (status id serverEnv generated : String) : Logger :=
  let enabled := status = "" || status = "enabled"
  { Enabled := enabled
    IncludesNativeInfo := false
    Id :=
      if enabled then
        if serverEnv = "development" then "dev"
        else if id = "" then generated
        else id
      else "" }

/-! ### Response builder (main.go lines 54-115)

Go maps are reference values: `headers["content-type"] = "application/json"`
in `Response.Json` mutates the very map the caller passed (when non-nil). We
model a Go `map[string]string` parameter as `Option Headers` (`none` = nil)
and return, next to the `ResponseOutput`, the state of the caller's map after
the call, which is how the mutation is observed. -/

/-- A Go `map[string]string`, as an association list without duplicate keys
by construction of `setHeader`. -/
abbrev Headers := List (String × String)

/-- Go map assignment `h[k] = v`: replace the entry if the key is present,
otherwise add it. -/
def setHeader (h : Headers) (k v : String) : Headers :=
  if h.any (fun p => p.1 = k) then
    h.map (fun p => if p.1 = k then (k, v) else p)
  else h ++ [(k, v)]

/-- Go map lookup `h[k]` (as `value, ok`). -/
def getHeader (h : Headers) (k : String) : Option String :=
  (h.find? (fun p => p.1 = k)).map (fun p => p.2)

/-- Go struct `ResponseOutput`. -/
structure ResponseOutput where
  Body : String
  StatusCode : Int
  Headers : Headers
deriving Repr, DecidableEq

/-- `func (r Response) Send(body string, statusCode int, headers
map[string]string) ResponseOutput` (main.go lines 62-76): nil headers become
a fresh empty map, status 0 defaults to 200. -/
def Response.Send (body : String) (statusCode : Int)
    (headers : Option Headers) : ResponseOutput :=
  let headers := headers.getD []
  let statusCode := if statusCode = 0 then 200 else statusCode
  ⟨body, statusCode, headers⟩

/-- `func (r Response) Json(bodyStruct interface{}, statusCode int, headers
map[string]string) ResponseOutput` (main.go lines 78-97). Nil headers become
a fresh map, status 0 defaults to 200, `content-type` is written into the
headers map (mutating the caller's map when one was passed), then the body is
marshalled: on failure the result is `Send("Error encoding JSON.", 500, nil)`,
on success `Send(jsonString, statusCode, headers)`. The second component of
the result is the caller's map after the call. -/
def Response.Json (bodyStruct : GoValue) (statusCode : Int)
    (headers : Option Headers) : ResponseOutput × Option Headers :=
  let h0 := headers.getD []
  let statusCode := if statusCode = 0 then 200 else statusCode
  let h1 := setHeader h0 "content-type" "application/json"
  let callerHeaders := headers.map (fun _ => h1)
  match bodyStruct.jsonRepr with
  | none => (Response.Send "Error encoding JSON." 500 none, callerHeaders)
  | some jsonString => (Response.Send jsonString statusCode (some h1), callerHeaders)

/-! ### Helper lemmas -/

/-- A non-native `Write` with kind `log` is a single append of the resolved
line to the log stream. -/
theorem write_nonNative_log (l : Logger) (m : Message) (f : Files) :
    l.Write m LOGGER_TYPE_LOG false f
      = { f with logs := f.logs.write (resolveMessage m) } := by
  rw [Logger.Write]
  simp [Files.writeTo, LOGGER_TYPE_LOG, LOGGER_TYPE_ERROR]

/-- A non-native `Write` with kind `error` is a single append of the resolved
line to the error stream. -/
theorem write_nonNative_error (l : Logger) (m : Message) (f : Files) :
    l.Write m LOGGER_TYPE_ERROR false f
      = { f with errors := f.errors.write (resolveMessage m) } := by
  rw [Logger.Write]
  simp [Files.writeTo, LOGGER_TYPE_ERROR]

/-- A native `Write` on a logger whose advisory latch is still unset performs
two appends: the advisory line, then the message. -/
theorem write_native_unlatched (l : Logger) (m : Message) (k : String)
    (f : Files) (hl : l.IncludesNativeInfo = false) :
    l.Write m k true f
      = (f.writeTo k nativeAdvisory).writeTo k (resolveMessage m) := by
  rw [Logger.Write]
  simp [hl]
  rw [Logger.Write]
  simp [resolveMessage]

/-- Writing through a closed (or nil) stream pair never changes contents and
keeps both streams closed. -/
theorem writeTo_closed (f : Files) (k s : String)
    (hl : f.logs.isOpen = false) (he : f.errors.isOpen = false) :
    (f.writeTo k s).logs.content = f.logs.content
    ∧ (f.writeTo k s).errors.content = f.errors.content
    ∧ (f.writeTo k s).logs.isOpen = false
    ∧ (f.writeTo k s).errors.isOpen = false := by
  by_cases h : k = LOGGER_TYPE_ERROR <;>
    simp [Files.writeTo, FileState.write, h, hl, he]

/-! ### Claims -/

/-- C1: for every message passed to `Logger.Write`, the stored line follows
the resolution precedence of the type switch: an exact string verbatim, the
tagged `Log` wrapper as its rendered display string, any other value as its
JSON serialization, and, when serialization fails, as the generic
`fmt.Sprintf "%v"` rendering of the value. -/
theorem C1_write_resolution_precedence (l : Logger) (s : String) (lw : Log)
    (v w : GoValue) (j : String) (f : Files) (hopen : f.logs.isOpen = true)
    (hw : w.jsonRepr = some j) (hv : v.jsonRepr = none) :
    (l.Write (.str s) LOGGER_TYPE_LOG false f).logs.content
        = f.logs.content ++ s
    ∧ (l.Write (.logWrap lw) LOGGER_TYPE_LOG false f).logs.content
        = f.logs.content ++ lw.Message
    ∧ (l.Write (.other w) LOGGER_TYPE_LOG false f).logs.content
        = f.logs.content ++ j
    ∧ (l.Write (.other v) LOGGER_TYPE_LOG false f).logs.content
        = f.logs.content ++ v.verbose := by
  refine ⟨?_, ?_, ?_, ?_⟩ <;>
    rw [write_nonNative_log] <;>
    simp [FileState.write, resolveMessage, Log.render, hopen, hw, hv]

/-- Witness for C1 at concrete inputs. -/
theorem C1_write_resolution_precedence_witness :
    openFiles.logs.isOpen = true
    ∧ (GoValue.mk (some "[1]") "x").jsonRepr = some "[1]"
    ∧ (GoValue.mk none "y").jsonRepr = none
    ∧ ((Logger.mk true "dev" false).Write (.str "s") LOGGER_TYPE_LOG false
        openFiles).logs.content = openFiles.logs.content ++ "s"
    ∧ ((Logger.mk true "dev" false).Write (.logWrap ⟨"m"⟩) LOGGER_TYPE_LOG false
        openFiles).logs.content = openFiles.logs.content ++ "m"
    ∧ ((Logger.mk true "dev" false).Write (.other ⟨some "[1]", "x"⟩)
        LOGGER_TYPE_LOG false openFiles).logs.content
        = openFiles.logs.content ++ "[1]"
    ∧ ((Logger.mk true "dev" false).Write (.other ⟨none, "y"⟩)
        LOGGER_TYPE_LOG false openFiles).logs.content
        = openFiles.logs.content ++ "y" := by
  have h := C1_write_resolution_precedence (Logger.mk true "dev" false) "s"
    ⟨"m"⟩ ⟨none, "y"⟩ ⟨some "[1]", "x"⟩ "[1]" openFiles rfl rfl rfl
  exact ⟨rfl, rfl, rfl, h.1, h.2.1, h.2.2.1, h.2.2.2⟩

/-- C2 counterexample: `Logger.Write` stores the resolved line without any
trailing newline; writing the string `"abc"` stores exactly `"abc"`, which
differs from the newline-terminated line the claim predicts. -/
theorem C2_no_newline_counterexample :
    ((Logger.mk true "dev" false).Write (.str "abc") LOGGER_TYPE_LOG false
      openFiles).logs.content = "abc"
    ∧ ("abc" : String) ≠ "abc" ++ "\n" := by
  constructor
  · rw [write_nonNative_log]
    simp [FileState.write, resolveMessage, openFiles]
  · decide

/-- C2 amended: for every message, `Logger.Write` appends exactly the
resolved line (with no trailing newline) to the destination selected by the
kind, and leaves the other destination untouched. -/
theorem C2_write_appends_by_kind (l : Logger) (m : Message) (f : Files)
    (hl : f.logs.isOpen = true) (he : f.errors.isOpen = true) :
    (l.Write m LOGGER_TYPE_LOG false f).logs.content
        = f.logs.content ++ resolveMessage m
    ∧ (l.Write m LOGGER_TYPE_LOG false f).errors = f.errors
    ∧ (l.Write m LOGGER_TYPE_ERROR false f).errors.content
        = f.errors.content ++ resolveMessage m
    ∧ (l.Write m LOGGER_TYPE_ERROR false f).logs = f.logs := by
  rw [write_nonNative_log, write_nonNative_error]
  simp [FileState.write, hl, he]

/-- Witness for C2 amended at concrete inputs. -/
theorem C2_write_appends_by_kind_witness :
    openFiles.logs.isOpen = true
    ∧ openFiles.errors.isOpen = true
    ∧ ((Logger.mk true "dev" false).Write (.str "x") LOGGER_TYPE_LOG false
        openFiles).logs.content
        = openFiles.logs.content ++ resolveMessage (.str "x")
    ∧ ((Logger.mk true "dev" false).Write (.str "x") LOGGER_TYPE_LOG false
        openFiles).errors = openFiles.errors
    ∧ ((Logger.mk true "dev" false).Write (.str "x") LOGGER_TYPE_ERROR false
        openFiles).errors.content
        = openFiles.errors.content ++ resolveMessage (.str "x")
    ∧ ((Logger.mk true "dev" false).Write (.str "x") LOGGER_TYPE_ERROR false
        openFiles).logs = openFiles.logs := by
  have h := C2_write_appends_by_kind (Logger.mk true "dev" false) (.str "x")
    openFiles rfl rfl
  exact ⟨rfl, rfl, h.1, h.2.1, h.2.2.1, h.2.2.2⟩

/-- C3: evaluation of `Context.Error` at a concrete input. The source
forwards with `LOGGER_TYPE_LOG`, so the message lands in the log destination
and the error destination stays empty — contradicting the claimed (and
evidently intended) routing to the error destination. -/
theorem C3_error_routes_to_log_destination :
    ((Context.mk (Logger.mk true "dev" false)).Error (.str "boom")
        openFiles).logs.content = "boom"
    ∧ ((Context.mk (Logger.mk true "dev" false)).Error (.str "boom")
        openFiles).errors.content = "" := by
  unfold Context.Error
  rw [write_nonNative_log]
  simp [FileState.write, resolveMessage, openFiles]

/-- C4: evaluation of two consecutive native-origin writes on the same sink
instance. Because `Logger.Write` has a value receiver, the
`IncludesNativeInfo` latch set during the first call is lost when the call
returns, so the second native write emits the advisory line again: the log
destination holds two advisory lines, not one. -/
theorem C4_advisory_fires_twice :
    ((Logger.mk true "dev" false).Write (.str "b") LOGGER_TYPE_LOG true
      ((Logger.mk true "dev" false).Write (.str "a") LOGGER_TYPE_LOG true
        openFiles)).logs.content
      = ((nativeAdvisory ++ "a") ++ nativeAdvisory) ++ "b" := by
  rw [write_native_unlatched _ _ _ _ rfl, write_native_unlatched _ _ _ _ rfl]
  simp [Files.writeTo, FileState.write, resolveMessage, openFiles,
    LOGGER_TYPE_LOG, LOGGER_TYPE_ERROR, String.append_assoc]

/-- C5: evaluation of two consecutive `End` calls on the same enabled sink.
Because `End` has a value receiver, the `Enabled = false` flip is lost when
the first call returns, so the second call closes both destinations again:
each stream's `Close` is invoked twice. -/
theorem C5_end_closes_destinations_twice :
    ((Logger.mk true "dev" false).End
        ((Logger.mk true "dev" false).End openFiles)).logs.closeCount = 2
    ∧ ((Logger.mk true "dev" false).End
        ((Logger.mk true "dev" false).End openFiles)).errors.closeCount = 2 := by
  constructor <;> simp [Logger.End, FileState.close, openFiles]

/-- C6 counterexample: on a sink disabled at construction (nil streams), a
`Write` call is still attempted — `Logger.Write` never consults `Enabled` and
calls `stream.Write` on the selected destination (one write attempt is
recorded), even though no bytes are appended. -/
theorem C6_write_still_attempted_when_disabled :
    ((Logger.mk false "" false).Write (.str "x") LOGGER_TYPE_LOG false
        nilFiles).logs.writeAttempts ≠ 0
    ∧ ((Logger.mk false "" false).Write (.str "x") LOGGER_TYPE_LOG false
        nilFiles).logs.content = "" := by
  rw [write_nonNative_log]
  simp [FileState.write, nilFiles]

/-- C6 amended: `Logger.Write` never consults the `Enabled` flag, so a write
on a disabled sink is still attempted; but since a disabled sink's
destinations are unopened (disabled at construction) or closed (after `End`),
no bytes are ever appended to either destination. -/
theorem C6_no_bytes_appended_when_streams_closed (l : Logger) (m : Message)
    (k : String) (b : Bool) (f : Files)
    (hl : f.logs.isOpen = false) (he : f.errors.isOpen = false) :
    (l.Write m k b f).logs.content = f.logs.content
    ∧ (l.Write m k b f).errors.content = f.errors.content := by
  by_cases hg : (b && !l.IncludesNativeInfo) = true
  · have hb : b = true := by
      rcases Bool.and_eq_true _ _ |>.mp hg with ⟨hb, _⟩
      exact hb
    have hlatch : l.IncludesNativeInfo = false := by
      rcases Bool.and_eq_true _ _ |>.mp hg with ⟨_, hn⟩
      simpa using hn
    rw [hb, write_native_unlatched l m k f hlatch]
    have h1 := writeTo_closed f k nativeAdvisory hl he
    have h2 := writeTo_closed (f.writeTo k nativeAdvisory) k
      (resolveMessage m) h1.2.2.1 h1.2.2.2
    exact ⟨h2.1.trans h1.1, h2.2.1.trans h1.2.1⟩
  · rw [Logger.Write, dif_neg hg]
    have h1 := writeTo_closed f k (resolveMessage m) hl he
    exact ⟨h1.1, h1.2.1⟩

/-- Witness for C6 amended at concrete inputs. -/
theorem C6_no_bytes_appended_when_streams_closed_witness :
    nilFiles.logs.isOpen = false
    ∧ nilFiles.errors.isOpen = false
    ∧ ((Logger.mk false "" false).Write (.str "x") LOGGER_TYPE_ERROR true
        nilFiles).logs.content = nilFiles.logs.content
    ∧ ((Logger.mk false "" false).Write (.str "x") LOGGER_TYPE_ERROR true
        nilFiles).errors.content = nilFiles.errors.content := by
  have h := C6_no_bytes_appended_when_streams_closed (Logger.mk false "" false)
    (.str "x") LOGGER_TYPE_ERROR true nilFiles rfl rfl
  exact ⟨rfl, rfl, h.1, h.2⟩

/-- C7: evaluation of the revert path at final buffers `"out"` (log) and
`"err"` (error). The source's error branch forwards the `customLogs`
variable, so the error destination receives the log buffer `"out"` (preceded
by the advisory, which repeats because of the value receiver); the drained
error buffer `"err"` is written nowhere. -/
theorem C7_revert_routes_log_buffer_to_error_stream :
    ((Logger.mk true "dev" false).RevertNativeLogs "out" "err"
        openFiles).errors.content = nativeAdvisory ++ "out"
    ∧ ((Logger.mk true "dev" false).RevertNativeLogs "out" "err"
        openFiles).logs.content = nativeAdvisory ++ "out" := by
  unfold Logger.RevertNativeLogs
  simp only [ne_eq, reduceIte]
  rw [write_native_unlatched _ _ _ _ rfl, write_native_unlatched _ _ _ _ rfl]
  constructor <;>
    simp [Files.writeTo, FileState.write, resolveMessage, openFiles,
      LOGGER_TYPE_LOG, LOGGER_TYPE_ERROR]

/-- C8 counterexample: `Response.Json` on a value whose serialization fails
returns statusCode 500 and body `"Error encoding JSON."`, but its headers map
is the fresh empty map produced by `Send(..., 500, nil)` — it does not
contain the `content-type: application/json` entry the claim asserts. -/
theorem C8_error_response_has_empty_headers :
    (Response.Json ⟨none, "chan_val"⟩ 0 none).1
        = ⟨"Error encoding JSON.", 500, []⟩
    ∧ getHeader (Response.Json ⟨none, "chan_val"⟩ 0 none).1.Headers
        "content-type" ≠ some "application/json" := by
  constructor
  · simp [Response.Json, Response.Send]
  · simp [Response.Json, Response.Send, getHeader]

/-- C8 amended: for every value whose JSON serialization fails,
`Response.Json` returns statusCode 500, body `"Error encoding JSON."` and an
empty headers map, and (being a total function) never propagates the
serialization error to the caller. -/
theorem C8_json_failure_returns_500 (v : GoValue) (sc : Int)
    (h : Option Headers) (hv : v.jsonRepr = none) :
    (Response.Json v sc h).1 = ⟨"Error encoding JSON.", 500, []⟩ := by
  simp [Response.Json, Response.Send, hv]

/-- Witness for C8 amended at a concrete non-serializable value. -/
theorem C8_json_failure_returns_500_witness :
    (GoValue.mk none "func_val").jsonRepr = none
    ∧ (Response.Json ⟨none, "func_val"⟩ 200 (some [("a", "b")])).1
        = ⟨"Error encoding JSON.", 500, []⟩ :=
  ⟨rfl, C8_json_failure_returns_500 ⟨none, "func_val"⟩ 200 (some [("a", "b")]) rfl⟩

/-- C9: evaluation of main.go's id selection and id generation. With the
environment indicating development, a supplied non-empty id `"custom"` is
ignored in favour of the `"dev"` sentinel; and `_GenerateId` concatenates the
decimal (not hexadecimal) renderings of the timestamp and a random number
with no padding: at timestamp 255 it yields `"2559"`, not a hex string. -/
theorem C9_dev_overrides_supplied_id :
    (NewLogger "" "custom" "development" "abc1234").Id = "dev"
    ∧ Logger._GenerateId 255 9 = "2559" := by
  constructor
  · simp [NewLogger]
  · rfl

/-- C10: `Response.Json` writes `content-type: application/json` into the
caller-supplied headers map itself, before serialization is attempted (the
caller's map is mutated even when serialization fails), and on success the
returned response carries that same mutated map, not a fresh copy. -/
theorem C10_json_mutates_caller_headers (h : Headers) (v w : GoValue)
    (sc : Int) (j : String) (hw : w.jsonRepr = some j) :
    (Response.Json v sc (some h)).2
        = some (setHeader h "content-type" "application/json")
    ∧ (Response.Json w sc (some h)).1.Headers
        = setHeader h "content-type" "application/json" := by
  constructor
  · cases hv : v.jsonRepr <;> simp [Response.Json, hv]
  · simp [Response.Json, Response.Send, hw]

/-- Witness for C10 at concrete inputs. -/
theorem C10_json_mutates_caller_headers_witness :
    (GoValue.mk (some "{}") "map[]").jsonRepr = some "{}"
    ∧ (Response.Json ⟨none, "bad"⟩ 0 (some [("x", "y")])).2
        = some (setHeader [("x", "y")] "content-type" "application/json")
    ∧ (Response.Json ⟨some "{}", "map[]"⟩ 0 (some [("x", "y")])).1.Headers
        = setHeader [("x", "y")] "content-type" "application/json" := by
  have h := C10_json_mutates_caller_headers [("x", "y")] ⟨none, "bad"⟩
    ⟨some "{}", "map[]"⟩ 0 "{}" rfl
  exact ⟨rfl, h.1, h.2⟩
